import Mathlib

/-!
Verification of the `basisu` Rust wrapper crate (`src/lib.rs`).

The crate is a thin safe wrapper around an external C++ codec engine
(`basisu_sys` / vendored `basisu_transcoder.cpp`).  The wrapper code itself is
embedded faithfully below; the external engine is represented by an abstract
record of functions (`CodecEngine`), and the few facts about the engine that
the claims depend on (its static per-format metadata tables and its behavioural
contracts) are modelled from the specification, each marked
`Modelled from the spec:` in its doc comment.

Machine integers: Rust `usize`/`u32` values are modelled as `Nat`.  A
`try_into().unwrap()` from `usize` to `u32` succeeds exactly when the value is
below `2 ^ 32` and panics otherwise; a panicking code path is modelled by an
`Option` result of `none`.  An `as u32` cast is modelled by `% 2 ^ 32`.
Byte buffers (`&[u8]`) are modelled as `List Nat`.
-/

/-- Error type of the wrapper, from `src/lib.rs` (`pub enum BasisError`). -/
inductive BasisError
  /-- The basis file is corrupt. -/
  | InvalidFileContents
  /-- An invalid argument was provided. -/
  | InvalidArgument
  deriving DecidableEq

/-- Output texture formats, from `src/lib.rs` (`pub enum OutputFormat`).
The `repr(i32)` discriminant values are opaque engine constants and play no
role in any claim, so they are not reproduced. -/
inductive OutputFormat
  | BC1_RGB
  | BC3_RGBA
  | BC4_R
  | BC5_RG
  | BC7_RGBA
  | ETC1_RGB
  | ETC2_RGBA
  | ETC2_EAC_R11
  | ETC2_EAC_RG11
  | ASTC_4x4_RGBA
  | PVRTC1_4_RGB
  | PVRTC1_4_RGBA
  | PVRTC2_4_RGB
  | PVRTC2_4_RGBA
  | ATC_RGB
  | ATC_RGBA
  | FXT1_RGB
  | RGBA32
  | RGB565
  | RGBA4444
  | BGR565
  deriving DecidableEq, Fintype

/-- Modelled from the spec: the external engine's static metadata routine
`basist::basis_get_bytes_per_block_or_pixel` (its body is in the vendored C++
transcoder, not under `src/`).  Per the spec this is a pure,
compile-time-complete table lookup returning the bytes per block of a
block-compressed format, or the bytes per pixel of a raster format; the values
are the codec's fixed per-format sizes. -/
def basis_get_bytes_per_block_or_pixel : OutputFormat → Nat
  | .BC1_RGB => 8
  | .BC3_RGBA => 16
  | .BC4_R => 8
  | .BC5_RG => 16
  | .BC7_RGBA => 16
  | .ETC1_RGB => 8
  | .ETC2_RGBA => 16
  | .ETC2_EAC_R11 => 8
  | .ETC2_EAC_RG11 => 16
  | .ASTC_4x4_RGBA => 16
  | .PVRTC1_4_RGB => 8
  | .PVRTC1_4_RGBA => 8
  | .PVRTC2_4_RGB => 8
  | .PVRTC2_4_RGBA => 8
  | .ATC_RGB => 8
  | .ATC_RGBA => 16
  | .FXT1_RGB => 8
  | .RGBA32 => 4
  | .RGB565 => 2
  | .RGBA4444 => 2
  | .BGR565 => 2

/-- Modelled from the spec: the external engine's predicate
`basist::basis_block_format_is_uncompressed` (body in the vendored C++
transcoder, not under `src/`).  True exactly for the raster (non-block)
formats, which per `src/lib.rs` doc comments are RGBA32, RGB565, RGBA4444 and
BGR565. -/
def basis_block_format_is_uncompressed : OutputFormat → Bool
  | .RGBA32 => true
  | .RGB565 => true
  | .RGBA4444 => true
  | .BGR565 => true
  | _ => false

/-- Modelled from the spec: the external engine's static table
`basist::basis_get_block_width` (body in the vendored C++ transcoder, not
under `src/`).  Per the spec, 4 for most block formats and 8 for one misc
format, which per the `src/lib.rs` doc comment on `FXT1_RGB` ("Notable for
having a 8x4 block size") is FXT1. -/
def basis_get_block_width : OutputFormat → Nat
  | .FXT1_RGB => 8
  | _ => 4

/-- Modelled from the spec: the external engine's static table
`basist::basis_get_block_height` (body in the vendored C++ transcoder, not
under `src/`).  All supported block formats, FXT1 included, use height 4. -/
def basis_get_block_height : OutputFormat → Nat
  | _ => 4

/-- From `src/lib.rs`: `OutputFormat::bytes_per_block`, delegating to the
engine's static table. -/
def OutputFormat.bytes_per_block (f : OutputFormat) : Nat :=
  basis_get_bytes_per_block_or_pixel f

/-- From `src/lib.rs`: `OutputFormat::block_width` — returns 1 for
uncompressed formats, otherwise the engine's native block width. -/
def OutputFormat.block_width (f : OutputFormat) : Nat :=
  if basis_block_format_is_uncompressed f then 1 else basis_get_block_width f

/-- From `src/lib.rs`: `OutputFormat::block_height` — returns 1 for
uncompressed formats, otherwise the engine's native block height. -/
def OutputFormat.block_height (f : OutputFormat) : Nat :=
  if basis_block_format_is_uncompressed f then 1 else basis_get_block_height f

/-- Abstract interface of the external codec engine instance
(`basist::basisu_transcoder`), one field per engine entry point the wrapper
calls.  Each query takes the byte buffer together with the length value the
wrapper passes alongside it (the engine receives a raw pointer and an
explicit `u32` length).  Per the spec the metadata and validation queries are
pure and input-deterministic, so they are functions of their arguments; only
`start_transcoding` threads the engine's mutable scratch state (modelled as an
opaque `Nat`), matching the one `&mut self` entry point the wrapper uses.
`get_image_level_info` returns `some (width, height)` when the engine reports
success and fills the level-info record, `none` when it returns false.
`transcode_image_level` receives the output buffer and its capacity in blocks
and returns the engine's success flag together with the output buffer's new
contents. -/
structure CodecEngine where
  validate_file_checksums : List Nat → Nat → Bool → Bool
  validate_header : List Nat → Nat → Bool
  get_total_images : List Nat → Nat → Nat
  get_total_image_levels : List Nat → Nat → Nat → Nat
  start_transcoding : Nat → List Nat → Nat → Bool × Nat
  get_image_level_info : List Nat → Nat → Nat → Nat → Option (Nat × Nat)
  transcode_image_level :
    List Nat → Nat → Nat → Nat → List Nat → Nat → OutputFormat → Bool × List Nat

/-- From `src/lib.rs`: `pub struct BasisTranscoder(basist::basisu_transcoder)`.
The wrapped engine instance is modelled as the abstract engine interface plus
its opaque mutable scratch state. -/
structure BasisTranscoder where
  engine : CodecEngine
  scratch : Nat

/-- From `src/lib.rs`: `pub struct BasisFileTranscoder` — a handle holding a
mutable borrow of the transcoder and an immutable borrow of the file data. -/
structure BasisFileTranscoder where
  transcoder : BasisTranscoder
  data : List Nat

/-- From `src/lib.rs`: `BasisTranscoder::validate_file_checksums`.  The data
length crosses the boundary via `try_into().unwrap()` (panic — `none` — when
the length does not fit in `u32`). -/
def BasisTranscoder.validate_file_checksums (t : BasisTranscoder) (data : List Nat)
    (full_validation : Bool) : Option Bool :=
  if data.length < 2 ^ 32 then
    some (t.engine.validate_file_checksums data data.length full_validation)
  else none

/-- From `src/lib.rs`: `BasisTranscoder::validate_file_header`, with the same
`try_into().unwrap()` length handling. -/
def BasisTranscoder.validate_file_header (t : BasisTranscoder) (data : List Nat) :
    Option Bool :=
  if data.length < 2 ^ 32 then
    some (t.engine.validate_header data data.length)
  else none

/-- From `src/lib.rs`: `BasisTranscoder::get_total_images`, with the same
`try_into().unwrap()` length handling. -/
def BasisTranscoder.get_total_images (t : BasisTranscoder) (data : List Nat) :
    Option Nat :=
  if data.length < 2 ^ 32 then
    some (t.engine.get_total_images data data.length)
  else none

/-- From `src/lib.rs`: `BasisTranscoder::get_total_image_levels`, with the same
`try_into().unwrap()` length handling. -/
def BasisTranscoder.get_total_image_levels (t : BasisTranscoder) (data : List Nat)
    (image_index : Nat) : Option Nat :=
  if data.length < 2 ^ 32 then
    some (t.engine.get_total_image_levels data data.length image_index)
  else none

/-- From `src/lib.rs`: `BasisTranscoder::start_transcoding`.  The engine call
goes through `&mut self`, so the scratch state is threaded; on engine failure
the wrapper returns `Err(InvalidFileContents)`, on success it packages the
session and the buffer into a `BasisFileTranscoder` handle.  The result also
carries the session state as the caller observes it after the call (in Rust
the caller's `&mut` borrow ends and the session is theirs again). -/
def BasisTranscoder.start_transcoding (t : BasisTranscoder) (data : List Nat) :
    Option (Except BasisError BasisFileTranscoder × BasisTranscoder) :=
  if data.length < 2 ^ 32 then
    let r := t.engine.start_transcoding t.scratch data data.length
    let t' : BasisTranscoder := { t with scratch := r.2 }
    if r.1 then some (.ok ⟨t', data⟩, t')
    else some (.error .InvalidFileContents, t')
  else none

/-- From `src/lib.rs`: `BasisFileTranscoder::get_total_images`, delegating to
the session's query on the bound buffer. -/
def BasisFileTranscoder.get_total_images (f : BasisFileTranscoder) : Option Nat :=
  f.transcoder.get_total_images f.data

/-- From `src/lib.rs`: `BasisFileTranscoder::get_total_image_levels`,
delegating to the session's query on the bound buffer. -/
def BasisFileTranscoder.get_total_image_levels (f : BasisFileTranscoder)
    (image_index : Nat) : Option Nat :=
  f.transcoder.get_total_image_levels f.data image_index

/-- From `src/lib.rs`: `BasisFileTranscoder::level_dimensions`.  The data
length crosses the boundary via an `as u32` cast (truncation modulo `2 ^ 32`,
no panic).  Engine failure maps to `Err(InvalidArgument)`; success returns the
level-info record's width and height. -/
def BasisFileTranscoder.level_dimensions (f : BasisFileTranscoder)
    (image_index level_index : Nat) : Except BasisError (Nat × Nat) :=
  match f.transcoder.engine.get_image_level_info f.data (f.data.length % 2 ^ 32)
      image_index level_index with
  | none => .error .InvalidArgument
  | some wh => .ok wh

/-- From `src/lib.rs`: `BasisFileTranscoder::transcode_image_level`.  The
output capacity is computed as `output.len() / bytes_per_block` (integer
division) and converted with `try_into().unwrap()` (panic — `none` — when the
quotient does not fit in `u32`); the data length crosses via `as u32`.  Engine
failure maps to `Err(InvalidFileContents)`.  The result carries the output
buffer's contents after the call. -/
def BasisFileTranscoder.transcode_image_level (f : BasisFileTranscoder)
    (image_index level_index : Nat) (output : List Nat) (output_format : OutputFormat) :
    Option (Except BasisError Unit × List Nat) :=
  let output_size_blocks := output.length / output_format.bytes_per_block
  if output_size_blocks < 2 ^ 32 then
    let r := f.transcoder.engine.transcode_image_level f.data (f.data.length % 2 ^ 32)
      image_index level_index output output_size_blocks output_format
    if r.1 then some (.ok (), r.2)
    else some (.error .InvalidFileContents, r.2)
  else none

/-- Modelled from the spec: the logical content of a container file as the
engine parses it (the parse itself lives in the vendored C++ transcoder, not
under `src/`).  A container holds zero or more images, each a list of mip
levels carrying a `(width, height)` pair (§3 "Image / Level addressing",
§6 "Input"). -/
structure FileModel where
  images : List (List (Nat × Nat))

/-- Modelled from the spec: the engine's metadata queries agree with the
logical content of the buffer and depend only on the buffer (§8 "the engine's
validation is pure and input-deterministic"; §4.3 metadata conventions:
`total_levels` returns 0 for a non-existent image, and the level-info query
succeeds exactly when the index pair addresses an existing level, returning
that level's dimensions). -/
def EngineConforms (e : CodecEngine) (data : List Nat) (m : FileModel) : Prop :=
  (∀ n, e.get_total_images data n = m.images.length) ∧
  (∀ n i, e.get_total_image_levels data n i = ((m.images[i]?).map List.length).getD 0) ∧
  (∀ n i l, e.get_image_level_info data n i l = (m.images[i]?).bind fun ls => ls[l]?)

/-- Modelled from the spec: a failed `start_transcoding` leaves no partial
mutation of engine state behind (§4.3: "on failure returns an error without
partially mutating session state observable to the caller"; §7: no operation
leaves shared state partially constructed on failure). -/
def EngineStartPreservesScratchOnFailure (e : CodecEngine) : Prop :=
  ∀ s data n, (e.start_transcoding s data n).1 = false →
    (e.start_transcoding s data n).2 = s

/-- Modelled from the spec: the engine honours the output capacity it is
given in blocks — it writes at most `blocks * bytes_per_block` bytes into the
output buffer and never resizes it (§4.4 step 2, §8 "Buffer-size contract",
§9 "bounds are honored by that engine per its own contract"). -/
def EngineWriteBound (e : CodecEngine) : Prop :=
  ∀ data n i l out blocks fmt,
    (e.transcode_image_level data n i l out blocks fmt).2.length = out.length ∧
    ∀ j, blocks * fmt.bytes_per_block ≤ j →
      (e.transcode_image_level data n i l out blocks fmt).2[j]? = out[j]?

/-- Test fixture: an engine built from a concrete `FileModel`, used to
instantiate the abstract engine interface in witness theorems.  Its
`start_transcoding` always succeeds without touching scratch state and its
`transcode_image_level` reports success and leaves the output buffer as it
found it. -/
def engineOfModel (m : FileModel) : CodecEngine where
  validate_file_checksums := fun _ _ _ => true
  validate_header := fun _ _ => true
  get_total_images := fun _ _ => m.images.length
  get_total_image_levels := fun _ _ i => ((m.images[i]?).map List.length).getD 0
  get_image_level_info := fun _ _ i l => (m.images[i]?).bind fun ls => ls[l]?
  start_transcoding := fun s _ _ => (true, s)
  transcode_image_level := fun _ _ _ _ out _ _ => (true, out)

/-- Test fixture: an engine that rejects every buffer in `start_transcoding`,
again without touching scratch state. -/
def rejectingEngine : CodecEngine :=
  { engineOfModel ⟨[]⟩ with start_transcoding := fun s _ _ => (false, s) }

theorem engineOfModel_conforms (m : FileModel) (data : List Nat) :
    EngineConforms (engineOfModel m) data m :=
  ⟨fun _ => rfl, fun _ _ => rfl, fun _ _ _ => rfl⟩

/-- Test fixture: a one-image, one-level container model (the level is 5x7). -/
def fixtureModel : FileModel := ⟨[[(5, 7)]]⟩

/-- Test fixture: a session bound to the fixture model's engine. -/
def fixtureTranscoder : BasisTranscoder := ⟨engineOfModel fixtureModel, 0⟩

/-- Test fixture: a file-transcoding handle over the fixture session. -/
def fixtureHandle : BasisFileTranscoder := ⟨fixtureTranscoder, [0]⟩

/-- Test fixture: a session whose engine rejects every buffer. -/
def rejectingTranscoder : BasisTranscoder := ⟨rejectingEngine, 0⟩

/-- C7: for every `OutputFormat` variant, `bytes_per_block` is strictly
positive; `block_width` and `block_height` return 1 when the format is
uncompressed/raster, and otherwise return the engine's native block width and
height for the format. -/
theorem c7_format_metadata_invariants (f : OutputFormat) :
    0 < f.bytes_per_block ∧
    (basis_block_format_is_uncompressed f = true →
      f.block_width = 1 ∧ f.block_height = 1) ∧
    (basis_block_format_is_uncompressed f = false →
      f.block_width = basis_get_block_width f ∧
      f.block_height = basis_get_block_height f) := by
  revert f; decide

/-- Witness for C7 at the concrete formats RGBA32 (uncompressed) and
FXT1_RGB (block-compressed). -/
theorem c7_format_metadata_invariants_witness :
    0 < OutputFormat.RGBA32.bytes_per_block ∧
    OutputFormat.RGBA32.block_width = 1 ∧
    OutputFormat.RGBA32.block_height = 1 ∧
    OutputFormat.FXT1_RGB.block_width = basis_get_block_width OutputFormat.FXT1_RGB :=
  ⟨(c7_format_metadata_invariants OutputFormat.RGBA32).1,
   ((c7_format_metadata_invariants OutputFormat.RGBA32).2.1 (by decide)).1,
   ((c7_format_metadata_invariants OutputFormat.RGBA32).2.1 (by decide)).2,
   ((c7_format_metadata_invariants OutputFormat.FXT1_RGB).2.2 (by decide)).1⟩

/-- C1: whenever `transcode_image_level` reaches the engine (the block-count
conversion to `u32` does not panic), the output capacity it hands to the
engine is exactly `output.length / bytes_per_block format` — the floor
division of the byte length by the block size, i.e. a capacity measured in
whole blocks, not bytes. -/
theorem c1_transcode_capacity_in_blocks (f : BasisFileTranscoder)
    (image_index level_index : Nat) (output : List Nat) (fmt : OutputFormat)
    (h : output.length / fmt.bytes_per_block < 2 ^ 32) :
    f.transcode_image_level image_index level_index output fmt =
      some
        (let r := f.transcoder.engine.transcode_image_level f.data
          (f.data.length % 2 ^ 32) image_index level_index output
          (output.length / fmt.bytes_per_block) fmt
        (if r.1 then Except.ok () else Except.error BasisError.InvalidFileContents, r.2)) := by
  simp only [BasisFileTranscoder.transcode_image_level, if_pos h]
  cases hr : (f.transcoder.engine.transcode_image_level f.data
      (f.data.length % 2 ^ 32) image_index level_index output
      (output.length / fmt.bytes_per_block) fmt).1 <;> simp [hr]

/-- Witness for C1 on the fixture handle with a 3-byte output buffer and the
BC1_RGB format (block size 8, so capacity 0 blocks). -/
theorem c1_transcode_capacity_in_blocks_witness :
    fixtureHandle.transcode_image_level 0 0 [1, 2, 3] OutputFormat.BC1_RGB =
      some
        (let r := fixtureHandle.transcoder.engine.transcode_image_level
          fixtureHandle.data (fixtureHandle.data.length % 2 ^ 32) 0 0 [1, 2, 3]
          (([1, 2, 3] : List Nat).length / OutputFormat.BC1_RGB.bytes_per_block)
          OutputFormat.BC1_RGB
        (if r.1 then Except.ok () else Except.error BasisError.InvalidFileContents, r.2)) :=
  c1_transcode_capacity_in_blocks fixtureHandle 0 0 [1, 2, 3] OutputFormat.BC1_RGB
    (by decide)

/-- C2: whenever `transcode_image_level` reaches the engine, it returns
`Err(InvalidFileContents)` exactly when the engine reports failure and
`Ok(())` exactly when the engine reports success, and `InvalidFileContents`
is the only error value it ever produces. -/
theorem c2_transcode_error_uniform (f : BasisFileTranscoder)
    (image_index level_index : Nat) (output : List Nat) (fmt : OutputFormat)
    (h : output.length / fmt.bytes_per_block < 2 ^ 32) :
    (∀ err out, f.transcode_image_level image_index level_index output fmt =
        some (Except.error err, out) → err = BasisError.InvalidFileContents) ∧
    (∀ out, f.transcode_image_level image_index level_index output fmt =
        some (Except.ok (), out) ↔
      f.transcoder.engine.transcode_image_level f.data (f.data.length % 2 ^ 32)
        image_index level_index output (output.length / fmt.bytes_per_block) fmt =
        (true, out)) ∧
    (∀ out, f.transcode_image_level image_index level_index output fmt =
        some (Except.error BasisError.InvalidFileContents, out) ↔
      f.transcoder.engine.transcode_image_level f.data (f.data.length % 2 ^ 32)
        image_index level_index output (output.length / fmt.bytes_per_block) fmt =
        (false, out)) := by
  simp only [BasisFileTranscoder.transcode_image_level, if_pos h]
  cases hr : (f.transcoder.engine.transcode_image_level f.data
      (f.data.length % 2 ^ 32) image_index level_index output
      (output.length / fmt.bytes_per_block) fmt) with
  | mk b out2 =>
    cases b <;> simp [hr, Prod.ext_iff]

/-- Witness for C2 on the fixture handle (its engine always succeeds and
leaves the output unchanged). -/
theorem c2_transcode_error_uniform_witness :
    fixtureHandle.transcode_image_level 0 0 [1, 2, 3] OutputFormat.BC1_RGB =
      some (Except.ok (), [1, 2, 3]) :=
  ((c2_transcode_error_uniform fixtureHandle 0 0 [1, 2, 3] OutputFormat.BC1_RGB
    (by decide)).2.1 [1, 2, 3]).mpr rfl

/-- Counterexample for C3: on a buffer of length `2 ^ 32` the length conversion
`data.len().try_into().unwrap()` in `validate_file_header` panics (modelled as
`none`), so the operation does not return a boolean for every input buffer. -/
theorem c3_counterexample_large_buffer_panics :
    fixtureTranscoder.validate_file_header (List.replicate (2 ^ 32) 0) = none := by
  unfold BasisTranscoder.validate_file_header
  rw [List.length_replicate, if_neg (lt_irrefl (2 ^ 32))]

/-- C3 (amended): for every input buffer whose length fits in `u32`
(length < `2 ^ 32`), `validate_file_checksums` and `validate_file_header`
return a boolean without faulting, and calling either twice on the same buffer
yields the same boolean both times.  Absence of mutation holds by construction:
in the embedding both operations are pure functions of the session and the
buffer and return only a boolean. -/
theorem c3_validation_total_and_idempotent (t : BasisTranscoder) (data : List Nat)
    (full_validation : Bool) (h : data.length < 2 ^ 32) :
    (∃ b, t.validate_file_checksums data full_validation = some b) ∧
    (∃ b, t.validate_file_header data = some b) ∧
    t.validate_file_checksums data full_validation =
      t.validate_file_checksums data full_validation ∧
    t.validate_file_header data = t.validate_file_header data := by
  unfold BasisTranscoder.validate_file_checksums BasisTranscoder.validate_file_header
  rw [if_pos h, if_pos h]
  exact ⟨⟨_, rfl⟩, ⟨_, rfl⟩, rfl, rfl⟩

/-- Witness for the amended C3 on a concrete two-byte buffer. -/
theorem c3_validation_total_and_idempotent_witness :
    (∃ b, fixtureTranscoder.validate_file_checksums [4, 5] true = some b) ∧
    (∃ b, fixtureTranscoder.validate_file_header [4, 5] = some b) ∧
    fixtureTranscoder.validate_file_checksums [4, 5] true =
      fixtureTranscoder.validate_file_checksums [4, 5] true ∧
    fixtureTranscoder.validate_file_header [4, 5] =
      fixtureTranscoder.validate_file_header [4, 5] :=
  c3_validation_total_and_idempotent fixtureTranscoder [4, 5] true (by decide)

/-- C4: against an engine that conforms to the logical file model,
`level_dimensions` returns an error exactly when the `(image_index,
level_index)` pair does not address an existing level of the model, that error
is always `InvalidArgument`, and on success it returns the addressed level's
`(width, height)`. -/
theorem c4_level_dimensions_contract (f : BasisFileTranscoder) (m : FileModel)
    (image_index level_index : Nat)
    (hc : EngineConforms f.transcoder.engine f.data m) :
    (∀ err, f.level_dimensions image_index level_index = Except.error err →
      err = BasisError.InvalidArgument) ∧
    (f.level_dimensions image_index level_index =
        Except.error BasisError.InvalidArgument ↔
      ((m.images[image_index]?).bind fun ls => ls[level_index]?) = none) ∧
    (∀ w h, ((m.images[image_index]?).bind fun ls => ls[level_index]?) = some (w, h) →
      f.level_dimensions image_index level_index = Except.ok (w, h)) := by
  obtain ⟨-, -, hinfo⟩ := hc
  simp only [BasisFileTranscoder.level_dimensions, hinfo]
  cases hx : ((m.images[image_index]?).bind fun ls => ls[level_index]?) with
  | none => simp
  | some wh => simp

/-- Witness for C4: on the fixture's one-image/one-level file, level index 5
does not exist and `level_dimensions 0 5` reports `InvalidArgument`. -/
theorem c4_level_dimensions_contract_witness :
    fixtureHandle.level_dimensions 0 5 = Except.error BasisError.InvalidArgument :=
  ((c4_level_dimensions_contract fixtureHandle fixtureModel 0 5
    (engineOfModel_conforms fixtureModel [0])).2.1).mpr (by decide)

/-- C5: for an engine whose failed `start_transcoding` leaves its scratch
state untouched (the behaviour the spec ascribes to the engine), a failing
`start_transcoding` returns `Err(InvalidFileContents)` and hands the caller
back a session equal to the one before the call, while a succeeding one
returns a handle bound to exactly the given buffer and the post-call
session. -/
theorem c5_start_transcoding_failure_atomic (t : BasisTranscoder) (data : List Nat)
    (hp : EngineStartPreservesScratchOnFailure t.engine)
    (r : Except BasisError BasisFileTranscoder) (t' : BasisTranscoder)
    (h : t.start_transcoding data = some (r, t')) :
    (∀ err, r = Except.error err →
      err = BasisError.InvalidFileContents ∧ t' = t) ∧
    (∀ hdl, r = Except.ok hdl → hdl.data = data ∧ hdl.transcoder = t') := by
  by_cases hl : data.length < 2 ^ 32
  · cases hb : (t.engine.start_transcoding t.scratch data data.length).1 with
    | true =>
      simp only [BasisTranscoder.start_transcoding, if_pos hl, hb, eq_self_iff_true,
        if_true, Option.some.injEq, Prod.mk.injEq] at h
      obtain ⟨hr, ht⟩ := h
      subst hr
      subst ht
      exact ⟨fun err herr => Except.noConfusion herr,
        fun hdl hh => by cases hh; exact ⟨rfl, rfl⟩⟩
    | false =>
      simp only [BasisTranscoder.start_transcoding, if_pos hl, hb, Bool.false_eq_true,
        if_false, Option.some.injEq, Prod.mk.injEq] at h
      obtain ⟨hr, ht⟩ := h
      subst hr
      subst ht
      refine ⟨fun err herr => ?_, fun hdl hh => Except.noConfusion hh⟩
      cases herr
      exact ⟨rfl, by rw [hp t.scratch data data.length hb]⟩
  · simp only [BasisTranscoder.start_transcoding, if_neg hl] at h
    cases h

/-- Witness for C5 on a session whose engine rejects every buffer: the failed
call reports `InvalidFileContents` and the session is unchanged. -/
theorem c5_start_transcoding_failure_atomic_witness :
    BasisError.InvalidFileContents = BasisError.InvalidFileContents ∧
    rejectingTranscoder = rejectingTranscoder :=
  (c5_start_transcoding_failure_atomic rejectingTranscoder [9]
    (fun _ _ _ _ => rfl) (Except.error BasisError.InvalidFileContents)
    rejectingTranscoder rfl).1 BasisError.InvalidFileContents rfl

/-- C8: against an engine conforming to the logical file model of a valid
buffer (every image has at least one level), and for a buffer whose length
fits in `u32`, `get_total_image_levels` returns 0 for an image index at or
beyond `get_total_images` and a value at least 1 below it, and that value
counts exactly the level indices for which `level_dimensions` succeeds. -/
theorem c8_total_image_levels_consistency (f : BasisFileTranscoder) (m : FileModel)
    (image_index : Nat)
    (hc : EngineConforms f.transcoder.engine f.data m)
    (hv : ∀ img ∈ m.images, img ≠ [])
    (hlen : f.data.length < 2 ^ 32) :
    ∃ total levels, f.get_total_images = some total ∧
      f.get_total_image_levels image_index = some levels ∧
      (total ≤ image_index → levels = 0) ∧
      (image_index < total → 1 ≤ levels ∧
        ∀ level_index,
          (∃ wh, f.level_dimensions image_index level_index = Except.ok wh) ↔
            level_index < levels) := by
  obtain ⟨htot, hlev, hinfo⟩ := hc
  refine ⟨m.images.length, ((m.images[image_index]?).map List.length).getD 0,
    ?_, ?_, ?_, ?_⟩
  · unfold BasisFileTranscoder.get_total_images BasisTranscoder.get_total_images
    rw [if_pos hlen, htot]
  · unfold BasisFileTranscoder.get_total_image_levels
      BasisTranscoder.get_total_image_levels
    rw [if_pos hlen, hlev]
  · intro hge
    rw [List.getElem?_eq_none hge]
    rfl
  · intro hlt
    have hsome : m.images[image_index]? = some (m.images.get ⟨image_index, hlt⟩) :=
      List.getElem?_eq_getElem hlt
    rw [hsome]
    simp only [Option.map_some', Option.getD_some]
    constructor
    · exact Nat.succ_le_of_lt (List.length_pos.mpr (hv _ (List.getElem_mem hlt)))
    · intro level_index
      unfold BasisFileTranscoder.level_dimensions
      rw [hinfo, hsome, Option.some_bind]
      cases hx : (m.images.get ⟨image_index, hlt⟩)[level_index]? with
      | none =>
        refine iff_of_false ?_ (Nat.not_lt.mpr (List.getElem?_eq_none_iff.mp hx))
        rintro ⟨wh, hwh⟩
        exact Except.noConfusion hwh
      | some wh =>
        exact iff_of_true ⟨wh, rfl⟩ (List.getElem?_eq_some.mp hx).1

/-- Witness for C8 on the fixture's one-image/one-level file at image
index 0. -/
theorem c8_total_image_levels_consistency_witness :
    ∃ total levels, fixtureHandle.get_total_images = some total ∧
      fixtureHandle.get_total_image_levels 0 = some levels ∧
      (total ≤ 0 → levels = 0) ∧
      (0 < total → 1 ≤ levels ∧
        ∀ level_index,
          (∃ wh, fixtureHandle.level_dimensions 0 level_index = Except.ok wh) ↔
            level_index < levels) :=
  c8_total_image_levels_consistency fixtureHandle fixtureModel 0
    (engineOfModel_conforms fixtureModel [0]) (by decide) (by decide)

/-- C9: against an engine that honours its output capacity in blocks (the
bound the spec ascribes to the engine), any completed `transcode_image_level`
call leaves the output buffer's length unchanged and never writes any byte at
or beyond `(output.length / bytes_per_block) * bytes_per_block`; since that
cutoff is at most `output.length`, the trailing bytes beyond the last whole
block are never written. -/
theorem c9_trailing_bytes_never_written (f : BasisFileTranscoder)
    (image_index level_index : Nat) (output : List Nat) (fmt : OutputFormat)
    (hwb : EngineWriteBound f.transcoder.engine)
    (r : Except BasisError Unit) (out' : List Nat)
    (h : f.transcode_image_level image_index level_index output fmt = some (r, out')) :
    output.length / fmt.bytes_per_block * fmt.bytes_per_block ≤ output.length ∧
    out'.length = output.length ∧
    ∀ j, output.length / fmt.bytes_per_block * fmt.bytes_per_block ≤ j →
      out'[j]? = output[j]? := by
  have hout : out' = (f.transcoder.engine.transcode_image_level f.data
      (f.data.length % 2 ^ 32) image_index level_index output
      (output.length / fmt.bytes_per_block) fmt).2 := by
    by_cases hq : output.length / fmt.bytes_per_block < 2 ^ 32
    · cases hb : (f.transcoder.engine.transcode_image_level f.data
          (f.data.length % 2 ^ 32) image_index level_index output
          (output.length / fmt.bytes_per_block) fmt).1 with
      | true =>
        simp only [BasisFileTranscoder.transcode_image_level, if_pos hq, hb,
          eq_self_iff_true, if_true, Option.some.injEq, Prod.mk.injEq] at h
        exact h.2.symm
      | false =>
        simp only [BasisFileTranscoder.transcode_image_level, if_pos hq, hb,
          Bool.false_eq_true, if_false, Option.some.injEq, Prod.mk.injEq] at h
        exact h.2.symm
    · simp only [BasisFileTranscoder.transcode_image_level, if_neg hq] at h
      cases h
  obtain ⟨hlen2, hbound⟩ := hwb f.data (f.data.length % 2 ^ 32) image_index
    level_index output (output.length / fmt.bytes_per_block) fmt
  exact ⟨Nat.div_mul_le_self output.length fmt.bytes_per_block,
    hout ▸ hlen2, fun j hj => hout ▸ hbound j hj⟩

/-- Witness for C9 on the fixture handle, whose engine leaves the output
buffer untouched (and hence trivially honours the write bound). -/
theorem c9_trailing_bytes_never_written_witness :
    ([1, 2, 3] : List Nat).length / OutputFormat.BC1_RGB.bytes_per_block *
        OutputFormat.BC1_RGB.bytes_per_block ≤ ([1, 2, 3] : List Nat).length ∧
    ([1, 2, 3] : List Nat).length = ([1, 2, 3] : List Nat).length ∧
    ∀ j, ([1, 2, 3] : List Nat).length / OutputFormat.BC1_RGB.bytes_per_block *
        OutputFormat.BC1_RGB.bytes_per_block ≤ j →
      ([1, 2, 3] : List Nat)[j]? = ([1, 2, 3] : List Nat)[j]? :=
  c9_trailing_bytes_never_written fixtureHandle 0 0 [1, 2, 3] OutputFormat.BC1_RGB
    (fun _ _ _ _ _ _ _ => ⟨rfl, fun _ _ => rfl⟩) (Except.ok ()) [1, 2, 3] rfl

/-- Test fixture: a buffer whose length does not fit in `u32`. -/
def bigBuffer : List Nat := List.replicate (2 ^ 32) 0

/-- Test fixture: a handle binding the fixture session to the oversized
buffer. -/
def bigHandle : BasisFileTranscoder := ⟨fixtureTranscoder, bigBuffer⟩

/-- C10: on a buffer of length at least `2 ^ 32` the two kinds of operations
treat the length inconsistently.  Every session-level operation
(`validate_file_checksums`, `validate_file_header`, `get_total_images`,
`get_total_image_levels`, `start_transcoding`) panics via the unwrapped
`try_into` (modelled as `none`), while the handle operations
(`level_dimensions`, `transcode_image_level`) proceed and hand the engine the
length reduced modulo `2 ^ 32` — a value strictly smaller than the buffer's
true length. -/
theorem c10_length_cast_inconsistency (t : BasisTranscoder) (f : BasisFileTranscoder)
    (full_validation : Bool) (image_index level_index : Nat) (data : List Nat)
    (h : 2 ^ 32 ≤ data.length) (hf : f.data = data) :
    (t.validate_file_checksums data full_validation = none ∧
     t.validate_file_header data = none ∧
     t.get_total_images data = none ∧
     t.get_total_image_levels data image_index = none ∧
     t.start_transcoding data = none) ∧
    data.length % 2 ^ 32 < data.length ∧
    f.level_dimensions image_index level_index =
      (match f.transcoder.engine.get_image_level_info data (data.length % 2 ^ 32)
          image_index level_index with
       | none => Except.error BasisError.InvalidArgument
       | some wh => Except.ok wh) ∧
    ∀ output fmt, (output : List Nat).length / OutputFormat.bytes_per_block fmt < 2 ^ 32 →
      f.transcode_image_level image_index level_index output fmt =
        some
          (let r := f.transcoder.engine.transcode_image_level data
            (data.length % 2 ^ 32) image_index level_index output
            (output.length / OutputFormat.bytes_per_block fmt) fmt
          (if r.1 then Except.ok () else Except.error BasisError.InvalidFileContents,
            r.2)) := by
  have hn : ¬ data.length < 2 ^ 32 := Nat.not_lt.mpr h
  refine ⟨⟨?_, ?_, ?_, ?_, ?_⟩, ?_, ?_, ?_⟩
  · unfold BasisTranscoder.validate_file_checksums
    rw [if_neg hn]
  · unfold BasisTranscoder.validate_file_header
    rw [if_neg hn]
  · unfold BasisTranscoder.get_total_images
    rw [if_neg hn]
  · unfold BasisTranscoder.get_total_image_levels
    rw [if_neg hn]
  · unfold BasisTranscoder.start_transcoding
    rw [if_neg hn]
  · exact lt_of_lt_of_le (Nat.mod_lt data.length (by decide)) h
  · unfold BasisFileTranscoder.level_dimensions
    rw [hf]
  · intro output fmt hq
    simp only [BasisFileTranscoder.transcode_image_level, hf, if_pos hq]
    cases hb : (f.transcoder.engine.transcode_image_level data (data.length % 2 ^ 32)
        image_index level_index output
        (output.length / OutputFormat.bytes_per_block fmt) fmt).1 <;>
      simp [hb]

/-- Witness for C10 on the oversized fixture buffer: a session-level query
panics while the truncated length is genuinely smaller than the buffer's
length. -/
theorem c10_length_cast_inconsistency_witness :
    fixtureTranscoder.get_total_images bigBuffer = none ∧
    bigBuffer.length % 2 ^ 32 < bigBuffer.length :=
  (fun H => ⟨H.1.2.2.1, H.2.1⟩)
    (c10_length_cast_inconsistency fixtureTranscoder bigHandle true 0 0 bigBuffer
      (List.length_replicate (2 ^ 32) 0).ge rfl)
